import Mathlib

/-!
Verification of the VR session data server (`main.py`): the record
transcoder (nested JSON record ↔ flat 26-column row used by the upload
and download endpoints) and the session store operations (batch insert,
list sessions, stats, clear), shallowly embedded in Lean.

JSON values are modelled by `JVal`; Python `dict.get(k, default)` is
`dget` (raising `AttributeError` on non-dict receivers, as Python does);
the database is a list of committed rows, with `created_at` modelled as
a `Nat` timestamp assigned at insert time.
-/

/-- A JSON value as produced by `json.loads`.  Numbers are modelled as
integers: every claim treats numeric leaves as opaque pass-through data. -/
inductive JVal where
  | jnull : JVal
  | jbool : Bool → JVal
  | jnum : Int → JVal
  | jstr : String → JVal
  | jarr : List JVal → JVal
  | jobj : List (String × JVal) → JVal

/-- Association-list lookup, modelling Python dict key lookup (keys of a
parsed JSON object are unique, so first match suffices). -/
def lookupF : List (String × JVal) → String → Option JVal
  | [], _ => none
  | (k, v) :: rest, key => if key = k then some v else lookupF rest key

/-- Does the value have `.get`, i.e. is it a JSON object (Python dict)? -/
def JVal.isObjB : JVal → Bool
  | .jobj _ => true
  | _ => false

/-- Python `value.get(k, d)`: on a dict returns the entry for `k` (even a
stored `None`) or the default `d`; on any non-dict receiver it raises
`AttributeError`. -/
def dget (v : JVal) (k : String) (d : JVal) : Except String JVal :=
  match v with
  | .jobj fs => .ok ((lookupF fs k).getD d)
  | _ => .error "AttributeError"

/-- Sequencing of fallible extractions (exception propagation). -/
def ebind (x : Except String α) (f : α → Except String β) : Except String β :=
  match x with
  | .error e => .error e
  | .ok a => f a

/-- `record.get(k1, {}).get(k2)`: a two-level path extraction as written
in the upload endpoint. -/
def getPath2 (record : JVal) (k1 k2 : String) : Except String JVal :=
  ebind (dget record k1 (.jobj [])) fun a => dget a k2 .jnull

/-- `record.get(k1, {}).get(k2, {}).get(k3)`: a three-level path
extraction as written in the upload endpoint. -/
def getPath3 (record : JVal) (k1 k2 k3 : String) : Except String JVal :=
  ebind (dget record k1 (.jobj [])) fun a =>
  ebind (dget a k2 (.jobj [])) fun b =>
  dget b k3 .jnull

/-- The flat storage row: the 26 data columns of `session_records`, in
the column order of the INSERT statement.  `id` and `created_at` are
store-assigned metadata kept outside this structure. -/
structure FlatRow where
  session_id : JVal
  phase : JVal
  area : JVal
  timestamp : JVal
  speaker : JVal
  text : JVal
  hmd_position_x : JVal
  hmd_position_y : JVal
  hmd_position_z : JVal
  hmd_gaze_x : JVal
  hmd_gaze_y : JVal
  hmd_gaze_z : JVal
  hmd_gaze_actor : JVal
  hmd_movement_speed : JVal
  controller_r_x : JVal
  controller_r_y : JVal
  controller_r_z : JVal
  controller_l_x : JVal
  controller_l_y : JVal
  controller_l_z : JVal
  controller_r_actor : JVal
  controller_l_actor : JVal
  controller_r_speed : JVal
  controller_l_speed : JVal
  user_emotion : JVal
  emotion_window_flag : JVal

/-- The upload endpoint's column extraction for one record: the 26
`record.get(...)` expressions of the INSERT parameter tuple, in source
order.  Any `AttributeError` raised by a `.get` chain aborts the whole
extraction, exactly as in the Python loop body. -/
def flattenRecord (record : JVal) : Except String FlatRow :=
  ebind (dget record "session_id" .jnull) fun session_id =>
  ebind (dget record "phase" .jnull) fun phase =>
  ebind (dget record "area" .jnull) fun area =>
  ebind (dget record "timestamp" .jnull) fun timestamp =>
  ebind (getPath2 record "conversation_data" "speaker") fun speaker =>
  ebind (getPath2 record "conversation_data" "text") fun text =>
  ebind (getPath3 record "hmd_data" "position" "x") fun hmd_position_x =>
  ebind (getPath3 record "hmd_data" "position" "y") fun hmd_position_y =>
  ebind (getPath3 record "hmd_data" "position" "z") fun hmd_position_z =>
  ebind (getPath3 record "hmd_data" "gaze_vector" "x") fun hmd_gaze_x =>
  ebind (getPath3 record "hmd_data" "gaze_vector" "y") fun hmd_gaze_y =>
  ebind (getPath3 record "hmd_data" "gaze_vector" "z") fun hmd_gaze_z =>
  ebind (getPath2 record "hmd_data" "gaze_actor") fun hmd_gaze_actor =>
  ebind (getPath2 record "hmd_data" "movement_speed") fun hmd_movement_speed =>
  ebind (getPath3 record "controller_data" "r_position" "x") fun controller_r_x =>
  ebind (getPath3 record "controller_data" "r_position" "y") fun controller_r_y =>
  ebind (getPath3 record "controller_data" "r_position" "z") fun controller_r_z =>
  ebind (getPath3 record "controller_data" "l_position" "x") fun controller_l_x =>
  ebind (getPath3 record "controller_data" "l_position" "y") fun controller_l_y =>
  ebind (getPath3 record "controller_data" "l_position" "z") fun controller_l_z =>
  ebind (getPath2 record "controller_data" "r_interacted_actor") fun controller_r_actor =>
  ebind (getPath2 record "controller_data" "l_interacted_actor") fun controller_l_actor =>
  ebind (getPath2 record "controller_data" "r_movement_speed") fun controller_r_speed =>
  ebind (getPath2 record "controller_data" "l_movement_speed") fun controller_l_speed =>
  ebind (dget record "user_emotion" .jnull) fun user_emotion =>
  ebind (dget record "emotion_window_flag" .jnull) fun emotion_window_flag =>
  .ok ⟨session_id, phase, area, timestamp, speaker, text,
    hmd_position_x, hmd_position_y, hmd_position_z,
    hmd_gaze_x, hmd_gaze_y, hmd_gaze_z, hmd_gaze_actor, hmd_movement_speed,
    controller_r_x, controller_r_y, controller_r_z,
    controller_l_x, controller_l_y, controller_l_z,
    controller_r_actor, controller_l_actor,
    controller_r_speed, controller_l_speed,
    user_emotion, emotion_window_flag⟩

/-- The download endpoint's nested reconstruction of one stored row: the
fixed nested shape built in `download_session_with_nested_structure`,
with every intermediate object always present. -/
def unflattenRow (record : FlatRow) : JVal :=
  .jobj [
    ("session_id", record.session_id),
    ("phase", record.phase),
    ("area", record.area),
    ("timestamp", record.timestamp),
    ("conversation_data", .jobj [
      ("speaker", record.speaker),
      ("text", record.text)]),
    ("hmd_data", .jobj [
      ("position", .jobj [
        ("x", record.hmd_position_x),
        ("y", record.hmd_position_y),
        ("z", record.hmd_position_z)]),
      ("gaze_vector", .jobj [
        ("x", record.hmd_gaze_x),
        ("y", record.hmd_gaze_y),
        ("z", record.hmd_gaze_z)]),
      ("gaze_actor", record.hmd_gaze_actor),
      ("movement_speed", record.hmd_movement_speed)]),
    ("controller_data", .jobj [
      ("r_position", .jobj [
        ("x", record.controller_r_x),
        ("y", record.controller_r_y),
        ("z", record.controller_r_z)]),
      ("l_position", .jobj [
        ("x", record.controller_l_x),
        ("y", record.controller_l_y),
        ("z", record.controller_l_z)]),
      ("r_interacted_actor", record.controller_r_actor),
      ("l_interacted_actor", record.controller_l_actor),
      ("r_movement_speed", record.controller_r_speed),
      ("l_movement_speed", record.controller_l_speed)]),
    ("user_emotion", record.user_emotion),
    ("emotion_window_flag", record.emotion_window_flag)]

/-- A scalar JSON leaf value (the domain data stored in one column). -/
inductive Scalar where
  | snull : Scalar
  | sbool : Bool → Scalar
  | snum : Int → Scalar
  | sstr : String → Scalar
deriving DecidableEq

/-- Embed a scalar leaf into a JSON value. -/
def Scalar.toJVal : Scalar → JVal
  | .snull => .jnull
  | .sbool b => .jbool b
  | .snum n => .jnum n
  | .sstr s => .jstr s

/-- A leaf that may be absent from the uploaded record; absent leaves
become the storage null. -/
def optScalarJ (o : Option Scalar) : JVal := (o.map Scalar.toJVal).getD .jnull

/-- Zero or one object entry, depending on whether the field is present
in the uploaded nested record. -/
def optF (k : String) (v : Option JVal) : List (String × JVal) :=
  match v with
  | none => []
  | some x => [(k, x)]

/-- Zero or one scalar entry. -/
def sOptF (k : String) (v : Option Scalar) : List (String × JVal) :=
  optF k (v.map Scalar.toJVal)

/-- An uploaded `position` / `gaze_vector` sub-object with an arbitrary
subset of its coordinates present. -/
structure Vec3Rec where
  x : Option Scalar
  y : Option Scalar
  z : Option Scalar

/-- An uploaded `conversation_data` sub-object. -/
structure ConvRec where
  speaker : Option Scalar
  text : Option Scalar

/-- An uploaded `hmd_data` sub-object. -/
structure HmdRec where
  position : Option Vec3Rec
  gaze_vector : Option Vec3Rec
  gaze_actor : Option Scalar
  movement_speed : Option Scalar

/-- An uploaded `controller_data` sub-object. -/
structure CtrlRec where
  r_position : Option Vec3Rec
  l_position : Option Vec3Rec
  r_interacted_actor : Option Scalar
  l_interacted_actor : Option Scalar
  r_movement_speed : Option Scalar
  l_movement_speed : Option Scalar

/-- A nested telemetry record with an arbitrary subset of the 26 defined
leaf fields (and of the intermediate sub-objects) present. -/
structure NestedRec where
  session_id : Option Scalar
  phase : Option Scalar
  area : Option Scalar
  timestamp : Option Scalar
  conversation_data : Option ConvRec
  hmd_data : Option HmdRec
  controller_data : Option CtrlRec
  user_emotion : Option Scalar
  emotion_window_flag : Option Scalar

/-- The JSON object a `Vec3Rec` denotes. -/
def Vec3Rec.toJson (v : Vec3Rec) : JVal :=
  .jobj (sOptF "x" v.x ++ sOptF "y" v.y ++ sOptF "z" v.z)

/-- The JSON object a `ConvRec` denotes. -/
def ConvRec.toJson (c : ConvRec) : JVal :=
  .jobj (sOptF "speaker" c.speaker ++ sOptF "text" c.text)

/-- The JSON object an `HmdRec` denotes. -/
def HmdRec.toJson (h : HmdRec) : JVal :=
  .jobj (optF "position" (h.position.map Vec3Rec.toJson) ++
    optF "gaze_vector" (h.gaze_vector.map Vec3Rec.toJson) ++
    sOptF "gaze_actor" h.gaze_actor ++
    sOptF "movement_speed" h.movement_speed)

/-- The JSON object a `CtrlRec` denotes. -/
def CtrlRec.toJson (c : CtrlRec) : JVal :=
  .jobj (optF "r_position" (c.r_position.map Vec3Rec.toJson) ++
    optF "l_position" (c.l_position.map Vec3Rec.toJson) ++
    sOptF "r_interacted_actor" c.r_interacted_actor ++
    sOptF "l_interacted_actor" c.l_interacted_actor ++
    sOptF "r_movement_speed" c.r_movement_speed ++
    sOptF "l_movement_speed" c.l_movement_speed)

/-- The JSON object a `NestedRec` denotes: exactly the present fields
appear as keys. -/
def NestedRec.toJson (r : NestedRec) : JVal :=
  .jobj (sOptF "session_id" r.session_id ++
    sOptF "phase" r.phase ++
    sOptF "area" r.area ++
    sOptF "timestamp" r.timestamp ++
    optF "conversation_data" (r.conversation_data.map ConvRec.toJson) ++
    optF "hmd_data" (r.hmd_data.map HmdRec.toJson) ++
    optF "controller_data" (r.controller_data.map CtrlRec.toJson) ++
    sOptF "user_emotion" r.user_emotion ++
    sOptF "emotion_window_flag" r.emotion_window_flag)

/-- The flat row the upload extraction is expected to produce for a
nested record: each of the 26 leaf paths followed through the present
sub-objects, null where any component is absent. -/
def NestedRec.flatOf (r : NestedRec) : FlatRow where
  session_id := optScalarJ r.session_id
  phase := optScalarJ r.phase
  area := optScalarJ r.area
  timestamp := optScalarJ r.timestamp
  speaker := optScalarJ (r.conversation_data.bind ConvRec.speaker)
  text := optScalarJ (r.conversation_data.bind ConvRec.text)
  hmd_position_x := optScalarJ ((r.hmd_data.bind HmdRec.position).bind Vec3Rec.x)
  hmd_position_y := optScalarJ ((r.hmd_data.bind HmdRec.position).bind Vec3Rec.y)
  hmd_position_z := optScalarJ ((r.hmd_data.bind HmdRec.position).bind Vec3Rec.z)
  hmd_gaze_x := optScalarJ ((r.hmd_data.bind HmdRec.gaze_vector).bind Vec3Rec.x)
  hmd_gaze_y := optScalarJ ((r.hmd_data.bind HmdRec.gaze_vector).bind Vec3Rec.y)
  hmd_gaze_z := optScalarJ ((r.hmd_data.bind HmdRec.gaze_vector).bind Vec3Rec.z)
  hmd_gaze_actor := optScalarJ (r.hmd_data.bind HmdRec.gaze_actor)
  hmd_movement_speed := optScalarJ (r.hmd_data.bind HmdRec.movement_speed)
  controller_r_x := optScalarJ ((r.controller_data.bind CtrlRec.r_position).bind Vec3Rec.x)
  controller_r_y := optScalarJ ((r.controller_data.bind CtrlRec.r_position).bind Vec3Rec.y)
  controller_r_z := optScalarJ ((r.controller_data.bind CtrlRec.r_position).bind Vec3Rec.z)
  controller_l_x := optScalarJ ((r.controller_data.bind CtrlRec.l_position).bind Vec3Rec.x)
  controller_l_y := optScalarJ ((r.controller_data.bind CtrlRec.l_position).bind Vec3Rec.y)
  controller_l_z := optScalarJ ((r.controller_data.bind CtrlRec.l_position).bind Vec3Rec.z)
  controller_r_actor := optScalarJ (r.controller_data.bind CtrlRec.r_interacted_actor)
  controller_l_actor := optScalarJ (r.controller_data.bind CtrlRec.l_interacted_actor)
  controller_r_speed := optScalarJ (r.controller_data.bind CtrlRec.r_movement_speed)
  controller_l_speed := optScalarJ (r.controller_data.bind CtrlRec.l_movement_speed)
  user_emotion := optScalarJ r.user_emotion
  emotion_window_flag := optScalarJ r.emotion_window_flag

/-- The nested document the download endpoint is expected to rebuild for
a record `r`: the fixed nested shape (all intermediate objects present),
every leaf that was present in `r` carrying its exact value and every
absent leaf filled with null. -/
def NestedRec.fillNested (r : NestedRec) : JVal := unflattenRow r.flatOf


/-- Python `filename.endswith(suffix)` (ASCII filenames). -/
def strEndsWith (s suffix : String) : Bool :=
  suffix.data.isSuffixOf s.data

/-- Binding an extracted value as a query parameter and storing it: the
persisted store is modelled after the embedded SQLite backend (the
local default fallback), whose TEXT affinity stores any bindable scalar
in any column.  `None`, numbers and strings bind as themselves; Python
booleans are adapted to the integers 1/0; a dict or list value is an
unsupported parameter type and raises a binding error — under the
networked backend the same dict/list values equally fail to bind
(`can't adapt`), so binding failures are failures of both backends. -/
def storeVal : JVal → Option Scalar
  | .jnull => some .snull
  | .jbool b => some (.snum (if b then 1 else 0))
  | .jnum n => some (.snum n)
  | .jstr s => some (.sstr s)
  | .jobj _ => none
  | .jarr _ => none

/-- A committed row of `session_records`: the stored scalar values of
the two columns the claims observe (`session_id`, non-null by its NOT
NULL constraint, and `user_emotion`), the store-assigned `created_at`
timestamp, and the full extracted flat row. -/
structure StoreRow where
  session_id : Scalar
  user_emotion : Scalar
  created_at : Nat
  flat : FlatRow

/-- The 26 extracted column values of one row, in INSERT order: every
one of them is bound as a query parameter by `cursor.execute`. -/
def colsOf (f : FlatRow) : List JVal :=
  [f.session_id, f.phase, f.area, f.timestamp, f.speaker, f.text,
    f.hmd_position_x, f.hmd_position_y, f.hmd_position_z,
    f.hmd_gaze_x, f.hmd_gaze_y, f.hmd_gaze_z,
    f.hmd_gaze_actor, f.hmd_movement_speed,
    f.controller_r_x, f.controller_r_y, f.controller_r_z,
    f.controller_l_x, f.controller_l_y, f.controller_l_z,
    f.controller_r_actor, f.controller_l_actor,
    f.controller_r_speed, f.controller_l_speed,
    f.user_emotion, f.emotion_window_flag]

/-- One INSERT of an extracted row.  It fails exactly when the program's
`cursor.execute` raises: some column value cannot be bound as a query
parameter (a dict or list — a failure under both backends), or the
`session_id TEXT NOT NULL` constraint is violated.  Any bindable scalar
`session_id` (a number included) is accepted and stored, as SQLite's
TEXT affinity does; `t` models the store-assigned `created_at`. -/
def insertRow (f : FlatRow) (t : Nat) : Option StoreRow :=
  match storeVal f.session_id with
  | none => none
  | some .snull => none
  | some sid =>
    if (colsOf f).all fun v => (storeVal v).isSome then
      some ⟨sid, (storeVal f.user_emotion).getD .snull, t, f⟩
    else none

/-- Whether one uploaded record can be flattened and inserted: `none`
exactly when processing the record raises (an `AttributeError` during
extraction, a parameter-binding error, or the NOT NULL constraint). -/
def insertable (r : JVal) (t : Nat) : Option StoreRow :=
  match flattenRecord r with
  | .ok f => insertRow f t
  | .error _ => none

/-- The upload loop over the batch on one uncommitted connection: the
first raised extraction, parameter-binding or constraint error aborts
the loop (nothing is committed); otherwise the rows to be committed are
produced in order.  The two insert-time exception classes are collapsed
into one error label. -/
def insertAll : List JVal → Nat → Except String (List StoreRow)
  | [], _ => .ok []
  | r :: rest, t =>
    match flattenRecord r with
    | .error e => .error e
    | .ok f =>
      match insertRow f t with
      | none => .error "unsupported parameter or NOT NULL constraint failed"
      | some row =>
        match insertAll rest t with
        | .error e => .error e
        | .ok rows => .ok (row :: rows)

/-- `SELECT COUNT(DISTINCT session_id) FROM session_records`. -/
def uniqueSessions (db : List StoreRow) : Nat :=
  (db.map StoreRow.session_id).dedup.length

/-- The JSON body of a successful upload response. -/
structure UploadOk where
  records_added : Nat
  total_sessions : Nat

/-- One execution of the upload endpoint: its HTTP result, the committed
database state after the call, and how many connections were opened and
closed along the taken path. -/
structure UploadOutcome where
  result : Except (Nat × String) UploadOk
  db : List StoreRow
  opens : Nat
  closes : Nat

/-- `upload_session_data`: filename gate, JSON parse (`parsed = none`
models a `json.JSONDecodeError`), top-level array check, then the insert
loop followed by commit and a second connection for the session count.
A failure inside the insert loop is caught by the generic handler after
the connection was opened but before any `conn.close()` runs. -/
def uploadSessionData (filename : String) (parsed : Option JVal)
    (db : List StoreRow) (t : Nat) : UploadOutcome :=
  if strEndsWith filename ".json" then
    match parsed with
    | none => ⟨.error (400, "Invalid JSON format"), db, 0, 0⟩
    | some (.jarr data) =>
      match insertAll data t with
      | .error e => ⟨.error (500, "Error processing file: " ++ e), db, 1, 0⟩
      | .ok rows => ⟨.ok ⟨rows.length, uniqueSessions (db ++ rows)⟩, db ++ rows, 2, 2⟩
    | some _ =>
      ⟨.error (500, "Error processing file: 400: JSON must be an array of session records"),
        db, 0, 0⟩
  else ⟨.error (400, "Only JSON files are allowed"), db, 0, 0⟩

/-- One item of the session listing: record count and earliest
`created_at` per `session_id` group (the raw grouping key; the textual
rendering of `created` is modelled separately by `formatCreatedSqlite`
and `formatCreatedPg`). -/
structure SessionSummary where
  session_id : Scalar
  records : Nat
  created : Nat

/-- The JSON body of the listing response. -/
structure SessionsResponse where
  items : List SessionSummary
  total : Nat
  has_more : Bool
  message : Option String
  error : Option String

/-- SQL `MIN` over a group (groups are never empty). -/
def minCreated : List Nat → Nat
  | [] => 0
  | x :: xs => xs.foldl Nat.min x

/-- Sort a list by a numeric key, largest first (`ORDER BY key DESC`;
SQL leaves the order of ties unspecified, insertion sort picks one). -/
def sortDescBy (key : α → Nat) (l : List α) : List α :=
  @List.insertionSort α (fun a b => key b ≤ key a)
    (fun a b => Nat.decLe (key b) (key a)) l

/-- `GROUP BY session_id` with `COUNT` and `MIN(created_at)`. -/
def groupSummaries (db : List StoreRow) : List SessionSummary :=
  ((db.map StoreRow.session_id).dedup).map fun sid =>
    let grp := db.filter fun r => r.session_id == sid
    ⟨sid, grp.length, minCreated (grp.map StoreRow.created_at)⟩

/-- The successful body of `get_sessions`: grouped summaries ordered by
earliest `created_at` descending, `OFFSET`/`LIMIT` paging, the distinct
session total, the zero-data early return, and the page-size-equality
`has_more` flag. -/
def getSessions (db : List StoreRow) (limit offset : Nat) : SessionsResponse :=
  let sessions := ((sortDescBy SessionSummary.created (groupSummaries db)).drop offset).take limit
  let total := uniqueSessions db
  if total = 0 then
    ⟨[], 0, false, some "No sessions found in database", none⟩
  else
    ⟨sessions, total, sessions.length == limit, none, none⟩

/-- The degraded listing response produced by the `except` handler. -/
def fallbackResponse (e : String) : SessionsResponse :=
  ⟨[], 0, false, none, some ("Database connection issue: " ++ e)⟩

/-- One execution of the listing endpoint with connection accounting. -/
structure SessionsOutcome where
  response : SessionsResponse
  opens : Nat
  closes : Nat

/-- `get_sessions` under failure injection: a connection failure
(`conn = .error e`) or a query failure after the connection was opened
(`queryFail = some e`) is caught by the endpoint's handler, which
returns the fallback response; on the failing paths `conn.close()` is
never reached. -/
def getSessionsEndpoint (conn : Except String (List StoreRow))
    (queryFail : Option String) (limit offset : Nat) : SessionsOutcome :=
  match conn with
  | .error e => ⟨fallbackResponse e, 0, 0⟩
  | .ok db =>
    match queryFail with
    | some e => ⟨fallbackResponse e, 1, 0⟩
    | none => ⟨getSessions db limit offset, 1, 1⟩

/-- The JSON body of the stats response. -/
structure StatsResult where
  total_records : Nat
  unique_sessions : Nat
  recent_records_24h : Nat
  top_emotions : List (Scalar × Nat)

/-- The stored `user_emotion` values passing
`user_emotion IS NOT NULL AND user_emotion != ''`: NULL is excluded by
the first conjunct, the empty string by the second; any other stored
scalar compares unequal to `''` and passes. -/
def emotionsOf (db : List StoreRow) : List Scalar :=
  db.filterMap fun r =>
    match r.user_emotion with
    | .snull => none
    | .sstr s => if s = "" then none else some (.sstr s)
    | v => some v

/-- `GROUP BY user_emotion ORDER BY count DESC LIMIT 5` over the
filtered emotions. -/
def topEmotions (db : List StoreRow) : List (Scalar × Nat) :=
  (sortDescBy Prod.snd
    ((emotionsOf db).dedup.map fun e => (e, (emotionsOf db).count e))).take 5

/-- The straight-line query body of `get_stats` (`now` in seconds; the
24h window condition `created_at >= now - 1 day`). -/
def computeStats (db : List StoreRow) (now : Nat) : StatsResult :=
  ⟨db.length, uniqueSessions db,
    (db.filter fun r => now ≤ r.created_at + 86400).length, topEmotions db⟩

/-- One execution of the stats endpoint with connection accounting. -/
structure StatsOutcome where
  result : Except String StatsResult
  opens : Nat
  closes : Nat

/-- `get_stats` under failure injection: the endpoint has no handler, so
a connection failure or a query failure propagates as a raised error;
on the mid-query failure path the opened connection is never closed. -/
def getStats (conn : Except String (List StoreRow))
    (queryFail : Option String) (now : Nat) : StatsOutcome :=
  match conn with
  | .error e => ⟨.error e, 0, 0⟩
  | .ok db =>
    match queryFail with
    | some e => ⟨.error e, 1, 0⟩
    | none => ⟨.ok (computeStats db now), 1, 1⟩

/-- Python `s.replace(' ', 'T')` for the single-character pattern used by
the listing endpoint. -/
def replaceSpaceT (s : String) : String :=
  String.mk (s.data.map fun c => if c = ' ' then 'T' else c)

/-- The SQLite branch's per-item rewriting of `created`: applied only to
truthy values (`None` and `""` are left untouched), space becomes `T`
and a `Z` suffix is appended. -/
def formatCreatedSqlite (created : Option String) : Option String :=
  match created with
  | none => none
  | some s => if s = "" then some s else some (replaceSpaceT s ++ "Z")

/-- The PostgreSQL branch's handling of `created`: the materialized rows
are used as-is, with no rewriting of the value. -/
def formatCreatedPg (created : Option String) : Option String := created

/-- The value present for key `k`, when present, is a JSON object. -/
def topObj (fs : List (String × JVal)) (k : String) : Bool :=
  match lookupF fs k with
  | some v => v.isObjB
  | none => true

/-- Inside the object stored at `k1` (if any), the value at `k2`, when
present, is a JSON object. -/
def subObj (fs : List (String × JVal)) (k1 k2 : String) : Bool :=
  match lookupF fs k1 with
  | some (.jobj gs) => topObj gs k2
  | _ => true

/-- Every intermediate key of the 26 leaf paths that is present in the
record holds a JSON object (absent intermediates are allowed). -/
def wellShaped (fs : List (String × JVal)) : Bool :=
  topObj fs "conversation_data" && topObj fs "hmd_data" &&
  topObj fs "controller_data" &&
  subObj fs "hmd_data" "position" && subObj fs "hmd_data" "gaze_vector" &&
  subObj fs "controller_data" "r_position" &&
  subObj fs "controller_data" "l_position"

/-- The leaf value of a one-component path: the stored entry or null. -/
def leaf1 (fs : List (String × JVal)) (k : String) : JVal :=
  (lookupF fs k).getD .jnull

/-- The leaf value of a two-component path on a well-shaped record: null
as soon as any component is absent. -/
def leaf2 (fs : List (String × JVal)) (k1 k2 : String) : JVal :=
  match lookupF fs k1 with
  | some (.jobj gs) => leaf1 gs k2
  | _ => .jnull

/-- The leaf value of a three-component path on a well-shaped record:
null as soon as any component is absent. -/
def leaf3 (fs : List (String × JVal)) (k1 k2 k3 : String) : JVal :=
  match lookupF fs k1 with
  | some (.jobj gs) =>
    match lookupF gs k2 with
    | some (.jobj hs) => leaf1 hs k3
    | _ => .jnull
  | _ => .jnull

/-- The flat row extracted from a well-shaped record: each of the 26
leaf paths followed as far as its components are present. -/
def rowOf (fs : List (String × JVal)) : FlatRow :=
  ⟨leaf1 fs "session_id", leaf1 fs "phase", leaf1 fs "area",
    leaf1 fs "timestamp",
    leaf2 fs "conversation_data" "speaker", leaf2 fs "conversation_data" "text",
    leaf3 fs "hmd_data" "position" "x", leaf3 fs "hmd_data" "position" "y",
    leaf3 fs "hmd_data" "position" "z",
    leaf3 fs "hmd_data" "gaze_vector" "x", leaf3 fs "hmd_data" "gaze_vector" "y",
    leaf3 fs "hmd_data" "gaze_vector" "z",
    leaf2 fs "hmd_data" "gaze_actor", leaf2 fs "hmd_data" "movement_speed",
    leaf3 fs "controller_data" "r_position" "x", leaf3 fs "controller_data" "r_position" "y",
    leaf3 fs "controller_data" "r_position" "z",
    leaf3 fs "controller_data" "l_position" "x", leaf3 fs "controller_data" "l_position" "y",
    leaf3 fs "controller_data" "l_position" "z",
    leaf2 fs "controller_data" "r_interacted_actor", leaf2 fs "controller_data" "l_interacted_actor",
    leaf2 fs "controller_data" "r_movement_speed", leaf2 fs "controller_data" "l_movement_speed",
    leaf1 fs "user_emotion", leaf1 fs "emotion_window_flag"⟩

/-- One execution of the session-detail endpoint with connection
accounting. -/
structure SessionDetailOutcome where
  result : Except String (List FlatRow)
  opens : Nat
  closes : Nat

/-- `get_session_by_id` under failure injection: the endpoint has no
handler, so a connection failure or a query failure propagates as a
raised error; on the mid-query failure path the opened connection is
never closed.  On success the rows of the session are returned (the
`ORDER BY timestamp` reordering of the page is a permutation that no
claim observes and is not modelled). -/
def getSessionById (conn : Except String (List StoreRow))
    (queryFail : Option String) (sid : String) : SessionDetailOutcome :=
  match conn with
  | .error e => ⟨.error e, 0, 0⟩
  | .ok db =>
    match queryFail with
    | some e => ⟨.error e, 1, 0⟩
    | none =>
      ⟨.ok ((db.filter fun r => r.session_id == Scalar.sstr sid).map StoreRow.flat),
        1, 1⟩

/-- One execution of the download endpoint with connection
accounting. -/
structure DownloadOutcome where
  result : Except String (List JVal)
  opens : Nat
  closes : Nat

/-- `download_session_with_nested_structure` under failure injection:
no handler, same connection discipline as the detail endpoint; on
success each selected row is reconstructed with `unflattenRow`. -/
def downloadSession (conn : Except String (List StoreRow))
    (queryFail : Option String) (sid : String) : DownloadOutcome :=
  match conn with
  | .error e => ⟨.error e, 0, 0⟩
  | .ok db =>
    match queryFail with
    | some e => ⟨.error e, 1, 0⟩
    | none =>
      ⟨.ok ((db.filter fun r => r.session_id == Scalar.sstr sid).map
          fun r => unflattenRow r.flat),
        1, 1⟩

/-- The JSON body of the health response. -/
structure HealthResponse where
  status : String
  database : String
  total_records : Option Nat
  total_sessions : Option Nat
  error : Option String

/-- One execution of the health endpoint with connection accounting. -/
structure HealthOutcome where
  response : HealthResponse
  opens : Nat
  closes : Nat

/-- `health_check` under failure injection: its `except` handler turns
any failure into a normally returned unhealthy response — including a
query failure after the connection was opened, a path on which
`conn.close()` is never reached although the endpoint returns
normally. -/
def healthCheck (conn : Except String (List StoreRow))
    (queryFail : Option String) : HealthOutcome :=
  match conn with
  | .error e => ⟨⟨"unhealthy", "disconnected", none, none, some e⟩, 0, 0⟩
  | .ok db =>
    match queryFail with
    | some e => ⟨⟨"unhealthy", "disconnected", none, none, some e⟩, 1, 0⟩
    | none =>
      ⟨⟨"healthy", "connected", some db.length, some (uniqueSessions db), none⟩,
        1, 1⟩

/-- One execution of the clear endpoint: its result, the persisted
state after the call, and connection accounting. -/
structure ClearOutcome where
  result : Except String String
  db : List StoreRow
  opens : Nat
  closes : Nat

/-- `clear_data` under failure injection: no handler; a failure of the
DELETE or the commit propagates with nothing committed and the opened
connection never closed; on success every record is deleted. -/
def clearData (db : List StoreRow) (connFail queryFail : Option String) :
    ClearOutcome :=
  match connFail with
  | some e => ⟨.error e, db, 0, 0⟩
  | none =>
    match queryFail with
    | some e => ⟨.error e, db, 1, 0⟩
    | none => ⟨.ok "All data cleared", [], 1, 1⟩


theorem lookupF_nil (key : String) : lookupF [] key = none := rfl

theorem lookupF_optF_ne (key k : String) (v : Option JVal)
    (rest : List (String × JVal)) (h : ¬ key = k) :
    lookupF (optF k v ++ rest) key = lookupF rest key := by
  cases v <;> simp [optF, lookupF, h]

theorem lookupF_optF_or (k : String) (v : Option JVal)
    (rest : List (String × JVal)) :
    lookupF (optF k v ++ rest) k = v.or (lookupF rest k) := by
  cases v <;> simp [optF, lookupF]

theorem lookupF_sOptF_ne (key k : String) (v : Option Scalar)
    (rest : List (String × JVal)) (h : ¬ key = k) :
    lookupF (sOptF k v ++ rest) key = lookupF rest key := by
  simp [sOptF, lookupF_optF_ne, h]

theorem lookupF_sOptF_or (k : String) (v : Option Scalar)
    (rest : List (String × JVal)) :
    lookupF (sOptF k v ++ rest) k = (v.map Scalar.toJVal).or (lookupF rest k) := by
  simp [sOptF, lookupF_optF_or]

theorem lookupF_sOptF_last_ne (key k : String) (v : Option Scalar)
    (h : ¬ key = k) : lookupF (sOptF k v) key = none := by
  cases v <;> simp [sOptF, optF, lookupF, h]

theorem lookupF_sOptF_last (k : String) (v : Option Scalar) :
    lookupF (sOptF k v) k = v.map Scalar.toJVal := by
  cases v <;> simp [sOptF, optF, lookupF]

theorem ebind_ok (a : α) (f : α → Except String β) :
    ebind (.ok a) f = f a := rfl

theorem ebind_error (e : String) (f : α → Except String β) :
    ebind (.error e) f = .error e := rfl

/-- Generic evaluation of a two-level `.get` chain through the JSON form
of an optional sub-object whose leaves are known. -/
theorem getPath2_eval {record : JVal} {k1 k2 : String} {α : Type}
    {o : Option α} {tj : α → JVal} {acc : α → Option Scalar}
    (h1 : dget record k1 (.jobj []) = .ok ((o.map tj).getD (.jobj [])))
    (h2 : ∀ a, dget (tj a) k2 .jnull = .ok (optScalarJ (acc a))) :
    getPath2 record k1 k2 = .ok (optScalarJ (o.bind acc)) := by
  rw [getPath2, h1, ebind_ok]
  cases o with
  | none => simp [dget, lookupF, optScalarJ]
  | some a => simpa [optScalarJ] using h2 a

/-- Generic evaluation of a three-level `.get` chain through the JSON
forms of two stacked optional sub-objects. -/
theorem getPath3_eval {record : JVal} {k1 k2 k3 : String} {α β : Type}
    {o : Option α} {tj : α → JVal} {acc : α → Option β}
    {tj2 : β → JVal} {acc2 : β → Option Scalar}
    (h1 : dget record k1 (.jobj []) = .ok ((o.map tj).getD (.jobj [])))
    (h2 : ∀ a, dget (tj a) k2 (.jobj []) = .ok (((acc a).map tj2).getD (.jobj [])))
    (h3 : ∀ b, dget (tj2 b) k3 .jnull = .ok (optScalarJ (acc2 b))) :
    getPath3 record k1 k2 k3 = .ok (optScalarJ ((o.bind acc).bind acc2)) := by
  rw [getPath3, h1, ebind_ok]
  cases o with
  | none => simp [dget, lookupF, optScalarJ, ebind_ok]
  | some a =>
    rw [Option.map_some', Option.getD_some, h2 a, ebind_ok]
    cases hb : acc a with
    | none => simp [hb, dget, lookupF, optScalarJ]
    | some b => simpa [hb, optScalarJ] using h3 b

theorem dget_toJson_session_id (r : NestedRec) :
    dget r.toJson "session_id" .jnull = .ok (optScalarJ r.session_id) := by
  simp (disch := decide) only [NestedRec.toJson, ConvRec.toJson, HmdRec.toJson,
    CtrlRec.toJson, Vec3Rec.toJson, dget, lookupF_sOptF_ne, lookupF_sOptF_or,
    lookupF_optF_ne, lookupF_optF_or, lookupF_nil, lookupF_sOptF_last_ne,
    lookupF_sOptF_last, Option.or_none, optScalarJ, List.append_assoc]

theorem dget_toJson_phase (r : NestedRec) :
    dget r.toJson "phase" .jnull = .ok (optScalarJ r.phase) := by
  simp (disch := decide) only [NestedRec.toJson, ConvRec.toJson, HmdRec.toJson,
    CtrlRec.toJson, Vec3Rec.toJson, dget, lookupF_sOptF_ne, lookupF_sOptF_or,
    lookupF_optF_ne, lookupF_optF_or, lookupF_nil, lookupF_sOptF_last_ne,
    lookupF_sOptF_last, Option.or_none, optScalarJ, List.append_assoc]

theorem dget_toJson_area (r : NestedRec) :
    dget r.toJson "area" .jnull = .ok (optScalarJ r.area) := by
  simp (disch := decide) only [NestedRec.toJson, ConvRec.toJson, HmdRec.toJson,
    CtrlRec.toJson, Vec3Rec.toJson, dget, lookupF_sOptF_ne, lookupF_sOptF_or,
    lookupF_optF_ne, lookupF_optF_or, lookupF_nil, lookupF_sOptF_last_ne,
    lookupF_sOptF_last, Option.or_none, optScalarJ, List.append_assoc]

theorem dget_toJson_timestamp (r : NestedRec) :
    dget r.toJson "timestamp" .jnull = .ok (optScalarJ r.timestamp) := by
  simp (disch := decide) only [NestedRec.toJson, ConvRec.toJson, HmdRec.toJson,
    CtrlRec.toJson, Vec3Rec.toJson, dget, lookupF_sOptF_ne, lookupF_sOptF_or,
    lookupF_optF_ne, lookupF_optF_or, lookupF_nil, lookupF_sOptF_last_ne,
    lookupF_sOptF_last, Option.or_none, optScalarJ, List.append_assoc]

theorem dget_toJson_conversation_data (r : NestedRec) :
    dget r.toJson "conversation_data" (.jobj []) = .ok ((r.conversation_data.map ConvRec.toJson).getD (.jobj [])) := by
  simp (disch := decide) only [NestedRec.toJson, ConvRec.toJson, HmdRec.toJson,
    CtrlRec.toJson, Vec3Rec.toJson, dget, lookupF_sOptF_ne, lookupF_sOptF_or,
    lookupF_optF_ne, lookupF_optF_or, lookupF_nil, lookupF_sOptF_last_ne,
    lookupF_sOptF_last, Option.or_none, optScalarJ, List.append_assoc]

theorem dget_toJson_hmd_data (r : NestedRec) :
    dget r.toJson "hmd_data" (.jobj []) = .ok ((r.hmd_data.map HmdRec.toJson).getD (.jobj [])) := by
  simp (disch := decide) only [NestedRec.toJson, ConvRec.toJson, HmdRec.toJson,
    CtrlRec.toJson, Vec3Rec.toJson, dget, lookupF_sOptF_ne, lookupF_sOptF_or,
    lookupF_optF_ne, lookupF_optF_or, lookupF_nil, lookupF_sOptF_last_ne,
    lookupF_sOptF_last, Option.or_none, optScalarJ, List.append_assoc]

theorem dget_toJson_controller_data (r : NestedRec) :
    dget r.toJson "controller_data" (.jobj []) = .ok ((r.controller_data.map CtrlRec.toJson).getD (.jobj [])) := by
  simp (disch := decide) only [NestedRec.toJson, ConvRec.toJson, HmdRec.toJson,
    CtrlRec.toJson, Vec3Rec.toJson, dget, lookupF_sOptF_ne, lookupF_sOptF_or,
    lookupF_optF_ne, lookupF_optF_or, lookupF_nil, lookupF_sOptF_last_ne,
    lookupF_sOptF_last, Option.or_none, optScalarJ, List.append_assoc]

theorem dget_toJson_user_emotion (r : NestedRec) :
    dget r.toJson "user_emotion" .jnull = .ok (optScalarJ r.user_emotion) := by
  simp (disch := decide) only [NestedRec.toJson, ConvRec.toJson, HmdRec.toJson,
    CtrlRec.toJson, Vec3Rec.toJson, dget, lookupF_sOptF_ne, lookupF_sOptF_or,
    lookupF_optF_ne, lookupF_optF_or, lookupF_nil, lookupF_sOptF_last_ne,
    lookupF_sOptF_last, Option.or_none, optScalarJ, List.append_assoc]

theorem dget_toJson_emotion_window_flag (r : NestedRec) :
    dget r.toJson "emotion_window_flag" .jnull = .ok (optScalarJ r.emotion_window_flag) := by
  simp (disch := decide) only [NestedRec.toJson, ConvRec.toJson, HmdRec.toJson,
    CtrlRec.toJson, Vec3Rec.toJson, dget, lookupF_sOptF_ne, lookupF_sOptF_or,
    lookupF_optF_ne, lookupF_optF_or, lookupF_nil, lookupF_sOptF_last_ne,
    lookupF_sOptF_last, Option.or_none, optScalarJ, List.append_assoc]

theorem dget_convJson_speaker (r : ConvRec) :
    dget r.toJson "speaker" .jnull = .ok (optScalarJ r.speaker) := by
  simp (disch := decide) only [NestedRec.toJson, ConvRec.toJson, HmdRec.toJson,
    CtrlRec.toJson, Vec3Rec.toJson, dget, lookupF_sOptF_ne, lookupF_sOptF_or,
    lookupF_optF_ne, lookupF_optF_or, lookupF_nil, lookupF_sOptF_last_ne,
    lookupF_sOptF_last, Option.or_none, optScalarJ, List.append_assoc]

theorem dget_convJson_text (r : ConvRec) :
    dget r.toJson "text" .jnull = .ok (optScalarJ r.text) := by
  simp (disch := decide) only [NestedRec.toJson, ConvRec.toJson, HmdRec.toJson,
    CtrlRec.toJson, Vec3Rec.toJson, dget, lookupF_sOptF_ne, lookupF_sOptF_or,
    lookupF_optF_ne, lookupF_optF_or, lookupF_nil, lookupF_sOptF_last_ne,
    lookupF_sOptF_last, Option.or_none, optScalarJ, List.append_assoc]

theorem dget_hmdJson_position (r : HmdRec) :
    dget r.toJson "position" (.jobj []) = .ok ((r.position.map Vec3Rec.toJson).getD (.jobj [])) := by
  simp (disch := decide) only [NestedRec.toJson, ConvRec.toJson, HmdRec.toJson,
    CtrlRec.toJson, Vec3Rec.toJson, dget, lookupF_sOptF_ne, lookupF_sOptF_or,
    lookupF_optF_ne, lookupF_optF_or, lookupF_nil, lookupF_sOptF_last_ne,
    lookupF_sOptF_last, Option.or_none, optScalarJ, List.append_assoc]

theorem dget_hmdJson_gaze_vector (r : HmdRec) :
    dget r.toJson "gaze_vector" (.jobj []) = .ok ((r.gaze_vector.map Vec3Rec.toJson).getD (.jobj [])) := by
  simp (disch := decide) only [NestedRec.toJson, ConvRec.toJson, HmdRec.toJson,
    CtrlRec.toJson, Vec3Rec.toJson, dget, lookupF_sOptF_ne, lookupF_sOptF_or,
    lookupF_optF_ne, lookupF_optF_or, lookupF_nil, lookupF_sOptF_last_ne,
    lookupF_sOptF_last, Option.or_none, optScalarJ, List.append_assoc]

theorem dget_hmdJson_gaze_actor (r : HmdRec) :
    dget r.toJson "gaze_actor" .jnull = .ok (optScalarJ r.gaze_actor) := by
  simp (disch := decide) only [NestedRec.toJson, ConvRec.toJson, HmdRec.toJson,
    CtrlRec.toJson, Vec3Rec.toJson, dget, lookupF_sOptF_ne, lookupF_sOptF_or,
    lookupF_optF_ne, lookupF_optF_or, lookupF_nil, lookupF_sOptF_last_ne,
    lookupF_sOptF_last, Option.or_none, optScalarJ, List.append_assoc]

theorem dget_hmdJson_movement_speed (r : HmdRec) :
    dget r.toJson "movement_speed" .jnull = .ok (optScalarJ r.movement_speed) := by
  simp (disch := decide) only [NestedRec.toJson, ConvRec.toJson, HmdRec.toJson,
    CtrlRec.toJson, Vec3Rec.toJson, dget, lookupF_sOptF_ne, lookupF_sOptF_or,
    lookupF_optF_ne, lookupF_optF_or, lookupF_nil, lookupF_sOptF_last_ne,
    lookupF_sOptF_last, Option.or_none, optScalarJ, List.append_assoc]

theorem dget_ctrlJson_r_position (r : CtrlRec) :
    dget r.toJson "r_position" (.jobj []) = .ok ((r.r_position.map Vec3Rec.toJson).getD (.jobj [])) := by
  simp (disch := decide) only [NestedRec.toJson, ConvRec.toJson, HmdRec.toJson,
    CtrlRec.toJson, Vec3Rec.toJson, dget, lookupF_sOptF_ne, lookupF_sOptF_or,
    lookupF_optF_ne, lookupF_optF_or, lookupF_nil, lookupF_sOptF_last_ne,
    lookupF_sOptF_last, Option.or_none, optScalarJ, List.append_assoc]

theorem dget_ctrlJson_l_position (r : CtrlRec) :
    dget r.toJson "l_position" (.jobj []) = .ok ((r.l_position.map Vec3Rec.toJson).getD (.jobj [])) := by
  simp (disch := decide) only [NestedRec.toJson, ConvRec.toJson, HmdRec.toJson,
    CtrlRec.toJson, Vec3Rec.toJson, dget, lookupF_sOptF_ne, lookupF_sOptF_or,
    lookupF_optF_ne, lookupF_optF_or, lookupF_nil, lookupF_sOptF_last_ne,
    lookupF_sOptF_last, Option.or_none, optScalarJ, List.append_assoc]

theorem dget_ctrlJson_r_interacted_actor (r : CtrlRec) :
    dget r.toJson "r_interacted_actor" .jnull = .ok (optScalarJ r.r_interacted_actor) := by
  simp (disch := decide) only [NestedRec.toJson, ConvRec.toJson, HmdRec.toJson,
    CtrlRec.toJson, Vec3Rec.toJson, dget, lookupF_sOptF_ne, lookupF_sOptF_or,
    lookupF_optF_ne, lookupF_optF_or, lookupF_nil, lookupF_sOptF_last_ne,
    lookupF_sOptF_last, Option.or_none, optScalarJ, List.append_assoc]

theorem dget_ctrlJson_l_interacted_actor (r : CtrlRec) :
    dget r.toJson "l_interacted_actor" .jnull = .ok (optScalarJ r.l_interacted_actor) := by
  simp (disch := decide) only [NestedRec.toJson, ConvRec.toJson, HmdRec.toJson,
    CtrlRec.toJson, Vec3Rec.toJson, dget, lookupF_sOptF_ne, lookupF_sOptF_or,
    lookupF_optF_ne, lookupF_optF_or, lookupF_nil, lookupF_sOptF_last_ne,
    lookupF_sOptF_last, Option.or_none, optScalarJ, List.append_assoc]

theorem dget_ctrlJson_r_movement_speed (r : CtrlRec) :
    dget r.toJson "r_movement_speed" .jnull = .ok (optScalarJ r.r_movement_speed) := by
  simp (disch := decide) only [NestedRec.toJson, ConvRec.toJson, HmdRec.toJson,
    CtrlRec.toJson, Vec3Rec.toJson, dget, lookupF_sOptF_ne, lookupF_sOptF_or,
    lookupF_optF_ne, lookupF_optF_or, lookupF_nil, lookupF_sOptF_last_ne,
    lookupF_sOptF_last, Option.or_none, optScalarJ, List.append_assoc]

theorem dget_ctrlJson_l_movement_speed (r : CtrlRec) :
    dget r.toJson "l_movement_speed" .jnull = .ok (optScalarJ r.l_movement_speed) := by
  simp (disch := decide) only [NestedRec.toJson, ConvRec.toJson, HmdRec.toJson,
    CtrlRec.toJson, Vec3Rec.toJson, dget, lookupF_sOptF_ne, lookupF_sOptF_or,
    lookupF_optF_ne, lookupF_optF_or, lookupF_nil, lookupF_sOptF_last_ne,
    lookupF_sOptF_last, Option.or_none, optScalarJ, List.append_assoc]

theorem dget_vecJson_x (r : Vec3Rec) :
    dget r.toJson "x" .jnull = .ok (optScalarJ r.x) := by
  simp (disch := decide) only [NestedRec.toJson, ConvRec.toJson, HmdRec.toJson,
    CtrlRec.toJson, Vec3Rec.toJson, dget, lookupF_sOptF_ne, lookupF_sOptF_or,
    lookupF_optF_ne, lookupF_optF_or, lookupF_nil, lookupF_sOptF_last_ne,
    lookupF_sOptF_last, Option.or_none, optScalarJ, List.append_assoc]

theorem dget_vecJson_y (r : Vec3Rec) :
    dget r.toJson "y" .jnull = .ok (optScalarJ r.y) := by
  simp (disch := decide) only [NestedRec.toJson, ConvRec.toJson, HmdRec.toJson,
    CtrlRec.toJson, Vec3Rec.toJson, dget, lookupF_sOptF_ne, lookupF_sOptF_or,
    lookupF_optF_ne, lookupF_optF_or, lookupF_nil, lookupF_sOptF_last_ne,
    lookupF_sOptF_last, Option.or_none, optScalarJ, List.append_assoc]

theorem dget_vecJson_z (r : Vec3Rec) :
    dget r.toJson "z" .jnull = .ok (optScalarJ r.z) := by
  simp (disch := decide) only [NestedRec.toJson, ConvRec.toJson, HmdRec.toJson,
    CtrlRec.toJson, Vec3Rec.toJson, dget, lookupF_sOptF_ne, lookupF_sOptF_or,
    lookupF_optF_ne, lookupF_optF_or, lookupF_nil, lookupF_sOptF_last_ne,
    lookupF_sOptF_last, Option.or_none, optScalarJ, List.append_assoc]

theorem ext_speaker (r : NestedRec) :
    getPath2 r.toJson "conversation_data" "speaker" = .ok (optScalarJ (r.conversation_data.bind ConvRec.speaker)) :=
  getPath2_eval (dget_toJson_conversation_data r) dget_convJson_speaker

theorem ext_text (r : NestedRec) :
    getPath2 r.toJson "conversation_data" "text" = .ok (optScalarJ (r.conversation_data.bind ConvRec.text)) :=
  getPath2_eval (dget_toJson_conversation_data r) dget_convJson_text

theorem ext_gaze_actor (r : NestedRec) :
    getPath2 r.toJson "hmd_data" "gaze_actor" = .ok (optScalarJ (r.hmd_data.bind HmdRec.gaze_actor)) :=
  getPath2_eval (dget_toJson_hmd_data r) dget_hmdJson_gaze_actor

theorem ext_movement_speed (r : NestedRec) :
    getPath2 r.toJson "hmd_data" "movement_speed" = .ok (optScalarJ (r.hmd_data.bind HmdRec.movement_speed)) :=
  getPath2_eval (dget_toJson_hmd_data r) dget_hmdJson_movement_speed

theorem ext_r_interacted_actor (r : NestedRec) :
    getPath2 r.toJson "controller_data" "r_interacted_actor" = .ok (optScalarJ (r.controller_data.bind CtrlRec.r_interacted_actor)) :=
  getPath2_eval (dget_toJson_controller_data r) dget_ctrlJson_r_interacted_actor

theorem ext_l_interacted_actor (r : NestedRec) :
    getPath2 r.toJson "controller_data" "l_interacted_actor" = .ok (optScalarJ (r.controller_data.bind CtrlRec.l_interacted_actor)) :=
  getPath2_eval (dget_toJson_controller_data r) dget_ctrlJson_l_interacted_actor

theorem ext_r_movement_speed (r : NestedRec) :
    getPath2 r.toJson "controller_data" "r_movement_speed" = .ok (optScalarJ (r.controller_data.bind CtrlRec.r_movement_speed)) :=
  getPath2_eval (dget_toJson_controller_data r) dget_ctrlJson_r_movement_speed

theorem ext_l_movement_speed (r : NestedRec) :
    getPath2 r.toJson "controller_data" "l_movement_speed" = .ok (optScalarJ (r.controller_data.bind CtrlRec.l_movement_speed)) :=
  getPath2_eval (dget_toJson_controller_data r) dget_ctrlJson_l_movement_speed

theorem ext_hmd_position_x (r : NestedRec) :
    getPath3 r.toJson "hmd_data" "position" "x" = .ok (optScalarJ ((r.hmd_data.bind HmdRec.position).bind Vec3Rec.x)) :=
  getPath3_eval (dget_toJson_hmd_data r) dget_hmdJson_position dget_vecJson_x

theorem ext_hmd_position_y (r : NestedRec) :
    getPath3 r.toJson "hmd_data" "position" "y" = .ok (optScalarJ ((r.hmd_data.bind HmdRec.position).bind Vec3Rec.y)) :=
  getPath3_eval (dget_toJson_hmd_data r) dget_hmdJson_position dget_vecJson_y

theorem ext_hmd_position_z (r : NestedRec) :
    getPath3 r.toJson "hmd_data" "position" "z" = .ok (optScalarJ ((r.hmd_data.bind HmdRec.position).bind Vec3Rec.z)) :=
  getPath3_eval (dget_toJson_hmd_data r) dget_hmdJson_position dget_vecJson_z

theorem ext_hmd_gaze_x (r : NestedRec) :
    getPath3 r.toJson "hmd_data" "gaze_vector" "x" = .ok (optScalarJ ((r.hmd_data.bind HmdRec.gaze_vector).bind Vec3Rec.x)) :=
  getPath3_eval (dget_toJson_hmd_data r) dget_hmdJson_gaze_vector dget_vecJson_x

theorem ext_hmd_gaze_y (r : NestedRec) :
    getPath3 r.toJson "hmd_data" "gaze_vector" "y" = .ok (optScalarJ ((r.hmd_data.bind HmdRec.gaze_vector).bind Vec3Rec.y)) :=
  getPath3_eval (dget_toJson_hmd_data r) dget_hmdJson_gaze_vector dget_vecJson_y

theorem ext_hmd_gaze_z (r : NestedRec) :
    getPath3 r.toJson "hmd_data" "gaze_vector" "z" = .ok (optScalarJ ((r.hmd_data.bind HmdRec.gaze_vector).bind Vec3Rec.z)) :=
  getPath3_eval (dget_toJson_hmd_data r) dget_hmdJson_gaze_vector dget_vecJson_z

theorem ext_controller_r_x (r : NestedRec) :
    getPath3 r.toJson "controller_data" "r_position" "x" = .ok (optScalarJ ((r.controller_data.bind CtrlRec.r_position).bind Vec3Rec.x)) :=
  getPath3_eval (dget_toJson_controller_data r) dget_ctrlJson_r_position dget_vecJson_x

theorem ext_controller_r_y (r : NestedRec) :
    getPath3 r.toJson "controller_data" "r_position" "y" = .ok (optScalarJ ((r.controller_data.bind CtrlRec.r_position).bind Vec3Rec.y)) :=
  getPath3_eval (dget_toJson_controller_data r) dget_ctrlJson_r_position dget_vecJson_y

theorem ext_controller_r_z (r : NestedRec) :
    getPath3 r.toJson "controller_data" "r_position" "z" = .ok (optScalarJ ((r.controller_data.bind CtrlRec.r_position).bind Vec3Rec.z)) :=
  getPath3_eval (dget_toJson_controller_data r) dget_ctrlJson_r_position dget_vecJson_z

theorem ext_controller_l_x (r : NestedRec) :
    getPath3 r.toJson "controller_data" "l_position" "x" = .ok (optScalarJ ((r.controller_data.bind CtrlRec.l_position).bind Vec3Rec.x)) :=
  getPath3_eval (dget_toJson_controller_data r) dget_ctrlJson_l_position dget_vecJson_x

theorem ext_controller_l_y (r : NestedRec) :
    getPath3 r.toJson "controller_data" "l_position" "y" = .ok (optScalarJ ((r.controller_data.bind CtrlRec.l_position).bind Vec3Rec.y)) :=
  getPath3_eval (dget_toJson_controller_data r) dget_ctrlJson_l_position dget_vecJson_y

theorem ext_controller_l_z (r : NestedRec) :
    getPath3 r.toJson "controller_data" "l_position" "z" = .ok (optScalarJ ((r.controller_data.bind CtrlRec.l_position).bind Vec3Rec.z)) :=
  getPath3_eval (dget_toJson_controller_data r) dget_ctrlJson_l_position dget_vecJson_z

/-- The upload extraction on the JSON form of any nested record succeeds
and produces exactly the leaf-by-leaf projection `flatOf`. -/
theorem flattenRecord_toJson (r : NestedRec) :
    flattenRecord r.toJson = .ok r.flatOf := by
  simp only [flattenRecord, NestedRec.flatOf, ebind_ok,
    dget_toJson_session_id, dget_toJson_phase, dget_toJson_area,
    dget_toJson_timestamp, dget_toJson_user_emotion,
    dget_toJson_emotion_window_flag,
    ext_speaker, ext_text, ext_gaze_actor, ext_movement_speed,
    ext_r_interacted_actor, ext_l_interacted_actor,
    ext_r_movement_speed, ext_l_movement_speed,
    ext_hmd_position_x, ext_hmd_position_y, ext_hmd_position_z,
    ext_hmd_gaze_x, ext_hmd_gaze_y, ext_hmd_gaze_z,
    ext_controller_r_x, ext_controller_r_y, ext_controller_r_z,
    ext_controller_l_x, ext_controller_l_y, ext_controller_l_z]

/-- C1: for every nested record with an arbitrary subset of the 26
defined leaf fields (and of the intermediate sub-objects) present,
unflattening the flattened form — the upload endpoint's column
extraction followed by the download endpoint's nested reconstruction —
reproduces every present field exactly and fills every absent leaf of
the fixed nested shape (with `conversation_data`, `hmd_data.position`,
`hmd_data.gaze_vector`, `controller_data.r_position`,
`controller_data.l_position` always present as objects) with null. -/
theorem C1_unflatten_flatten_round_trip (r : NestedRec) :
    (flattenRecord r.toJson).map unflattenRow = .ok r.fillNested := by
  rw [flattenRecord_toJson]
  rfl

/-- C2 counterexample: a record in which the intermediate key
`hmd_data` is present but holds null (not an object) makes the upload
extraction raise `AttributeError` instead of completing with a null
leaf, contradicting the claim's tolerance for non-object intermediate
values. -/
theorem C2_present_nonobject_intermediate_raises :
    flattenRecord (.jobj [("hmd_data", .jnull)]) = .error "AttributeError" := rfl

theorem getPath2_ok (fs : List (String × JVal)) (k1 k2 : String)
    (h : topObj fs k1 = true) :
    getPath2 (.jobj fs) k1 k2 = .ok (leaf2 fs k1 k2) := by
  rw [getPath2]
  cases hl : lookupF fs k1 with
  | none => simp [dget, hl, leaf2, lookupF, ebind, leaf1]
  | some v =>
    have hv : v.isObjB = true := by simpa [topObj, hl] using h
    cases v <;> simp_all [JVal.isObjB, dget, hl, leaf2, ebind, leaf1]

theorem getPath3_ok (fs : List (String × JVal)) (k1 k2 k3 : String)
    (h1 : topObj fs k1 = true) (h2 : subObj fs k1 k2 = true) :
    getPath3 (.jobj fs) k1 k2 k3 = .ok (leaf3 fs k1 k2 k3) := by
  rw [getPath3]
  cases hl : lookupF fs k1 with
  | none => simp [dget, hl, leaf3, lookupF, ebind, leaf1]
  | some v =>
    have hv : v.isObjB = true := by simpa [topObj, hl] using h1
    cases v with
    | jobj gs =>
      have hg : topObj gs k2 = true := by simpa [subObj, hl] using h2
      simp only [dget, hl, Option.getD_some, ebind]
      cases hl2 : lookupF gs k2 with
      | none => simp [dget, hl2, leaf3, hl, lookupF, ebind, leaf1]
      | some w =>
        have hw : w.isObjB = true := by simpa [topObj, hl2] using hg
        cases w <;> simp_all [JVal.isObjB, dget, leaf3, ebind, leaf1]
    | jnull => simp [JVal.isObjB] at hv
    | jbool b => simp [JVal.isObjB] at hv
    | jnum n => simp [JVal.isObjB] at hv
    | jstr s => simp [JVal.isObjB] at hv
    | jarr l => simp [JVal.isObjB] at hv

/-- C2 amended: for every uploaded record that is an object whose
present intermediate keys all hold objects, extraction never raises:
for each of the 26 leaf paths, if any intermediate key on the path is
absent from the record the extracted value for that leaf is null and
the extraction completes without error.  (When an intermediate key is
present but its value is not an object, the extraction raises instead —
see the counterexample.) -/
theorem C2_missing_intermediate_tolerance (fs : List (String × JVal))
    (h : wellShaped fs = true) :
    flattenRecord (.jobj fs) = .ok (rowOf fs) := by
  simp only [wellShaped, Bool.and_eq_true] at h
  obtain ⟨⟨⟨⟨⟨⟨hconv, hhmd⟩, hctrl⟩, hpos⟩, hgaze⟩, hrp⟩, hlp⟩ := h
  have e1 : ∀ k, dget (.jobj fs) k .jnull = .ok (leaf1 fs k) := fun k => rfl
  simp only [flattenRecord, e1,
    getPath2_ok fs "conversation_data" "speaker" hconv,
    getPath2_ok fs "conversation_data" "text" hconv,
    getPath2_ok fs "hmd_data" "gaze_actor" hhmd,
    getPath2_ok fs "hmd_data" "movement_speed" hhmd,
    getPath2_ok fs "controller_data" "r_interacted_actor" hctrl,
    getPath2_ok fs "controller_data" "l_interacted_actor" hctrl,
    getPath2_ok fs "controller_data" "r_movement_speed" hctrl,
    getPath2_ok fs "controller_data" "l_movement_speed" hctrl,
    getPath3_ok fs "hmd_data" "position" "x" hhmd hpos,
    getPath3_ok fs "hmd_data" "position" "y" hhmd hpos,
    getPath3_ok fs "hmd_data" "position" "z" hhmd hpos,
    getPath3_ok fs "hmd_data" "gaze_vector" "x" hhmd hgaze,
    getPath3_ok fs "hmd_data" "gaze_vector" "y" hhmd hgaze,
    getPath3_ok fs "hmd_data" "gaze_vector" "z" hhmd hgaze,
    getPath3_ok fs "controller_data" "r_position" "x" hctrl hrp,
    getPath3_ok fs "controller_data" "r_position" "y" hctrl hrp,
    getPath3_ok fs "controller_data" "r_position" "z" hctrl hrp,
    getPath3_ok fs "controller_data" "l_position" "x" hctrl hlp,
    getPath3_ok fs "controller_data" "l_position" "y" hctrl hlp,
    getPath3_ok fs "controller_data" "l_position" "z" hctrl hlp,
    ebind_ok]
  rfl

theorem C2_missing_intermediate_tolerance_witness :
    flattenRecord (.jobj [("session_id", .jstr "s1")]) =
      .ok (rowOf [("session_id", .jstr "s1")]) :=
  C2_missing_intermediate_tolerance [("session_id", .jstr "s1")] (by decide)

theorem replaceSpaceT_length (s : String) :
    (replaceSpaceT s).length = s.length := by
  rw [show (replaceSpaceT s).length
      = (s.data.map fun c => if c = ' ' then 'T' else c).length from rfl]
  rw [List.length_map]
  rfl

/-- C3 counterexample: on the earliest `created_at` string of a group,
the SQLite branch of the listing rewrites space to `T` and appends `Z`
while the PostgreSQL branch leaves the value untouched, so the two
backend branches are not observationally equivalent on `created`. -/
theorem C3_backend_created_formats_differ :
    formatCreatedSqlite (some "2024-01-01 12:00:00") ≠
      formatCreatedPg (some "2024-01-01 12:00:00") := by decide

/-- C3 amended: only the SQLite branch rewrites `created` (space
becomes `T`, a `Z` suffix is appended); the PostgreSQL branch returns
the value unmodified, so on every nonempty `created` string the two
branches disagree — the backends are not observationally equivalent on
this field. -/
theorem C3_created_formatting_per_backend (s : String) (h : ¬ s = "") :
    formatCreatedPg (some s) = some s ∧
    formatCreatedSqlite (some s) = some (replaceSpaceT s ++ "Z") ∧
    formatCreatedSqlite (some s) ≠ formatCreatedPg (some s) := by
  refine ⟨rfl, by simp [formatCreatedSqlite, h], ?_⟩
  simp only [formatCreatedSqlite, formatCreatedPg, if_neg h, ne_eq,
    Option.some.injEq]
  intro heq
  have hlen := congrArg String.length heq
  rw [String.length_append, replaceSpaceT_length,
    show ("Z" : String).length = 1 from rfl] at hlen
  omega

theorem C3_created_formatting_per_backend_witness :
    formatCreatedPg (some "2024-01-01 12:00:00") = some "2024-01-01 12:00:00" ∧
    formatCreatedSqlite (some "2024-01-01 12:00:00") =
      some (replaceSpaceT "2024-01-01 12:00:00" ++ "Z") ∧
    formatCreatedSqlite (some "2024-01-01 12:00:00") ≠
      formatCreatedPg (some "2024-01-01 12:00:00") :=
  C3_created_formatting_per_backend "2024-01-01 12:00:00" (by decide)

/-- C4 counterexample: on an empty store with `limit = 0` the returned
page size (0) equals the requested limit, yet the zero-data early
return reports `has_more = false`, so the claimed equivalence fails at
this boundary. -/
theorem C4_has_more_boundary_false :
    ¬ ((getSessions [] 0 0).has_more = true ↔
        (getSessions [] 0 0).items.length = 0) := by decide

/-- C4 amended: `has_more` is true iff the returned page size equals
the requested limit AND the store holds at least one session; when the
distinct session count is zero the early return always reports
`has_more = false` (even in the boundary case `limit = 0`, where the
page size equals the limit). -/
theorem C4_has_more_iff_page_full_and_nonempty (db : List StoreRow)
    (limit offset : Nat) :
    (getSessions db limit offset).has_more = true ↔
      ((getSessions db limit offset).items.length = limit ∧
        (getSessions db limit offset).total ≠ 0) := by
  by_cases h : uniqueSessions db = 0
  · simp [getSessions, h]
  · simp [getSessions, h, beq_iff_eq]

/-- C5 counterexample: a backend failure at connection time makes the
stats operation propagate the raised error to the caller instead of
returning an empty-result response with an error annotation. -/
theorem C5_stats_propagates_failure :
    (getStats (.error "OperationalError: connection refused") none 0).result =
      .error "OperationalError: connection refused" := rfl

/-- C5 amended: the listing operation degrades every backend failure
(at connection time or mid-query) to the empty-result response
annotated with an error description, but the stats operation has no
handler and propagates every backend failure to the caller as a raised
error. -/
theorem C5_listing_degrades_stats_propagates (e : String)
    (db : List StoreRow) (qf : Option String) (limit offset now : Nat) :
    (getSessionsEndpoint (.error e) qf limit offset).response =
      ⟨[], 0, false, none, some ("Database connection issue: " ++ e)⟩ ∧
    (getSessionsEndpoint (.ok db) (some e) limit offset).response =
      ⟨[], 0, false, none, some ("Database connection issue: " ++ e)⟩ ∧
    (getStats (.error e) qf now).result = .error e ∧
    (getStats (.ok db) (some e) now).result = .error e :=
  ⟨rfl, rfl, rfl, rfl⟩

/-- C6 counterexample: an upload whose batch contains a non-object
record opens a connection, fails inside the insert loop, and terminates
through the error path with the connection still open (`opens = 1`,
`closes = 0`) — an execution that ends with its connection unclosed. -/
theorem C6_failed_upload_leaks_connection :
    (uploadSessionData "data.json" (some (.jarr [JVal.jnull])) [] 0).opens = 1 ∧
    (uploadSessionData "data.json" (some (.jarr [JVal.jnull])) [] 0).closes = 0 := by
  decide

/-- C6 amended: on every successful exit path each of the seven logical
operations (batch insert, list sessions, get session, download, stats,
health check, clear) closes every connection it opened — all balance
`opens` with `closes` when they succeed — but on failure paths after
the connection was opened the connection is never closed: a failing
upload batch, a query failure in stats / get session / download /
clear (which propagate), and a query failure in health check (whose
handler even returns a normal unhealthy response) all terminate with
`opens = 1, closes = 0`. -/
theorem C6_success_paths_close_connection (fname : String)
    (parsed : Option JVal) (db db2 : List StoreRow) (t : Nat)
    (conn : Except String (List StoreRow)) (qf cf : Option String)
    (now limit offset : Nat) (e sid : String) :
    ((uploadSessionData fname parsed db t).result.isOk = true →
      (uploadSessionData fname parsed db t).opens =
        (uploadSessionData fname parsed db t).closes) ∧
    ((getStats conn qf now).result.isOk = true →
      (getStats conn qf now).opens = (getStats conn qf now).closes) ∧
    ((getSessionsEndpoint conn qf limit offset).response.error = none →
      (getSessionsEndpoint conn qf limit offset).opens =
        (getSessionsEndpoint conn qf limit offset).closes) ∧
    ((getSessionById conn qf sid).result.isOk = true →
      (getSessionById conn qf sid).opens = (getSessionById conn qf sid).closes) ∧
    ((downloadSession conn qf sid).result.isOk = true →
      (downloadSession conn qf sid).opens = (downloadSession conn qf sid).closes) ∧
    ((healthCheck conn qf).response.error = none →
      (healthCheck conn qf).opens = (healthCheck conn qf).closes) ∧
    ((clearData db2 cf qf).result.isOk = true →
      (clearData db2 cf qf).opens = (clearData db2 cf qf).closes) ∧
    (getStats (.ok db2) (some e) now).opens = 1 ∧
    (getStats (.ok db2) (some e) now).closes = 0 ∧
    (getSessionById (.ok db2) (some e) sid).opens = 1 ∧
    (getSessionById (.ok db2) (some e) sid).closes = 0 ∧
    (downloadSession (.ok db2) (some e) sid).opens = 1 ∧
    (downloadSession (.ok db2) (some e) sid).closes = 0 ∧
    (healthCheck (.ok db2) (some e)).response.status = "unhealthy" ∧
    (healthCheck (.ok db2) (some e)).opens = 1 ∧
    (healthCheck (.ok db2) (some e)).closes = 0 ∧
    (clearData db2 none (some e)).db = db2 ∧
    (clearData db2 none (some e)).opens = 1 ∧
    (clearData db2 none (some e)).closes = 0 := by
  refine ⟨?_, ?_, ?_, ?_, ?_, ?_, ?_,
    rfl, rfl, rfl, rfl, rfl, rfl, rfl, rfl, rfl, rfl, rfl, rfl⟩
  · by_cases hf : strEndsWith fname ".json" = true
    · rcases parsed with _ | j
      · simp [uploadSessionData, hf, Except.isOk]
      · cases j with
        | jarr data =>
          cases h : insertAll data t <;>
            simp [uploadSessionData, hf, Except.isOk, Except.toBool, h]
        | jnull => simp [uploadSessionData, hf, Except.isOk]
        | jbool b => simp [uploadSessionData, hf, Except.isOk]
        | jnum n => simp [uploadSessionData, hf, Except.isOk]
        | jstr s => simp [uploadSessionData, hf, Except.isOk]
        | jobj fs2 => simp [uploadSessionData, hf, Except.isOk]
    · simp [uploadSessionData, hf, Except.isOk]
  · rcases conn with e2 | db3
    · simp [getStats, Except.isOk, Except.toBool]
    · rcases qf with _ | e2 <;> simp [getStats, Except.isOk, Except.toBool]
  · rcases conn with e2 | db3
    · simp [getSessionsEndpoint, fallbackResponse]
    · rcases qf with _ | e2 <;> simp [getSessionsEndpoint, fallbackResponse]
  · rcases conn with e2 | db3
    · simp [getSessionById, Except.isOk, Except.toBool]
    · rcases qf with _ | e2 <;> simp [getSessionById, Except.isOk, Except.toBool]
  · rcases conn with e2 | db3
    · simp [downloadSession, Except.isOk, Except.toBool]
    · rcases qf with _ | e2 <;> simp [downloadSession, Except.isOk, Except.toBool]
  · rcases conn with e2 | db3
    · simp [healthCheck]
    · rcases qf with _ | e2 <;> simp [healthCheck]
  · rcases cf with _ | e2
    · rcases qf with _ | e3 <;> simp [clearData, Except.isOk, Except.toBool]
    · simp [clearData, Except.isOk, Except.toBool]

theorem C6_success_paths_close_connection_witness :
    (uploadSessionData "a.json" (some (.jarr [])) [] 0).opens =
      (uploadSessionData "a.json" (some (.jarr [])) [] 0).closes :=
  (C6_success_paths_close_connection "a.json" (some (.jarr [])) [] [] 0
    (.ok []) none none 0 0 0 "e" "s").1 (by decide)

/-- C10: an upload whose filename does not end in `.json` is rejected
with a 400 client error before any file content is read or parsed
(the result is the same for every `parsed` value) and before any
connection is opened; the persisted collection is unchanged. -/
theorem C10_non_json_filename_rejected (filename : String)
    (parsed : Option JVal) (db : List StoreRow) (t : Nat)
    (h : strEndsWith filename ".json" = false) :
    uploadSessionData filename parsed db t =
      ⟨.error (400, "Only JSON files are allowed"), db, 0, 0⟩ := by
  simp [uploadSessionData, h]

theorem C10_non_json_filename_rejected_witness :
    uploadSessionData "records.txt" none [] 0 =
      ⟨.error (400, "Only JSON files are allowed"), [], 0, 0⟩ :=
  C10_non_json_filename_rejected "records.txt" none [] 0 (by decide)

theorem insertAll_error_of_bad (data : List JVal) (t : Nat)
    (h : ∃ r ∈ data, (insertable r t).isSome = false) :
    ∃ e, insertAll data t = .error e := by
  induction data with
  | nil => simp at h
  | cons r rest ih =>
    cases hf : flattenRecord r with
    | error e2 => exact ⟨e2, by simp [insertAll, hf]⟩
    | ok f =>
      cases hr : insertRow f t with
      | none => exact ⟨"unsupported parameter or NOT NULL constraint failed",
          by simp [insertAll, hf, hr]⟩
      | some row =>
        rcases h with ⟨b, hb, hbad⟩
        rcases List.mem_cons.mp hb with rfl | hmem
        · simp [insertable, hf, hr] at hbad
        · obtain ⟨e2, he2⟩ := ih ⟨b, hmem, hbad⟩
          exact ⟨e2, by simp [insertAll, hf, hr, he2]⟩

/-- C7: batch insert is all-or-nothing — if processing any element of
an uploaded batch raises (an element that is not an object, a column
value that cannot be bound as a query parameter, or a NOT NULL
violation on `session_id` — `insertable` is `none` exactly for these),
the whole call aborts with a 500 failure result and the persisted
collection is exactly the prior state: `conn.commit()` is never
reached, so no row of the batch, including rows for elements before
the failing one, is committed. -/
theorem C7_batch_failure_all_or_nothing (data : List JVal)
    (db : List StoreRow) (t : Nat)
    (h : ∃ r ∈ data, (insertable r t).isSome = false) :
    ∃ e, uploadSessionData "session.json" (some (.jarr data)) db t =
      ⟨.error (500, "Error processing file: " ++ e), db, 1, 0⟩ := by
  obtain ⟨e, he⟩ := insertAll_error_of_bad data t h
  have hf : strEndsWith "session.json" ".json" = true := by decide
  exact ⟨e, by simp [uploadSessionData, hf, he]⟩

theorem C7_batch_failure_all_or_nothing_witness :
    ∃ e, uploadSessionData "session.json"
        (some (.jarr [.jobj [("session_id", .jstr "s1")], .jnull])) [] 0 =
      ⟨.error (500, "Error processing file: " ++ e), [], 1, 0⟩ :=
  C7_batch_failure_all_or_nothing [.jobj [("session_id", .jstr "s1")], .jnull] [] 0
    ⟨.jnull, by simp, by decide⟩

theorem sortDescBy_sorted (key : α → Nat) (l : List α) :
    List.Sorted (fun a b => key b ≤ key a) (sortDescBy key l) := by
  haveI : IsTotal α fun a b => key b ≤ key a :=
    ⟨fun a b => Nat.le_total (key b) (key a)⟩
  haveI : IsTrans α fun a b => key b ≤ key a :=
    ⟨fun a b c h1 h2 => Nat.le_trans h2 h1⟩
  exact List.sorted_insertionSort _ l

theorem mem_sortDescBy {key : α → Nat} {l : List α} {a : α} :
    a ∈ sortDescBy key l ↔ a ∈ l :=
  (List.perm_insertionSort _ _).mem_iff

/-- C9: for every store state, the `top_emotions` list of the stats
response contains no pair whose emotion is null or the empty string
(NULL emotions are excluded by the query's first filter conjunct, empty
strings by the second), is ordered by count descending, and has length
at most 5. -/
theorem C9_top_emotions_clean_sorted_bounded (db : List StoreRow) (now : Nat) :
    (∀ p ∈ (computeStats db now).top_emotions,
      p.1 ≠ Scalar.snull ∧ p.1 ≠ Scalar.sstr "") ∧
    List.Sorted (fun a b : Scalar × Nat => b.2 ≤ a.2)
      (computeStats db now).top_emotions ∧
    (computeStats db now).top_emotions.length ≤ 5 := by
  have htop : (computeStats db now).top_emotions = topEmotions db := rfl
  rw [htop, topEmotions]
  refine ⟨?_, ?_, List.length_take_le _ _⟩
  · intro p hp
    have h1 := (List.take_sublist _ _).mem hp
    have h2 := mem_sortDescBy.mp h1
    obtain ⟨e, he, hpe⟩ := List.mem_map.mp h2
    have he2 : e ∈ emotionsOf db := List.mem_dedup.mp he
    obtain ⟨r, _, hfr⟩ := List.mem_filterMap.mp he2
    subst hpe
    rcases hu : r.user_emotion with _ | b | n | s
    · rw [hu] at hfr
      simp at hfr
    · rw [hu] at hfr
      simp at hfr
      subst hfr
      exact ⟨by simp, by simp⟩
    · rw [hu] at hfr
      simp at hfr
      subst hfr
      exact ⟨by simp, by simp⟩
    · rw [hu] at hfr
      by_cases hs : s = ""
      · simp [hs] at hfr
      · simp [hs] at hfr
        subst hfr
        exact ⟨by simp, by simp [hs]⟩
  · exact (sortDescBy_sorted _ _).sublist (List.take_sublist _ _)

theorem C9_top_emotions_witness :
    (computeStats [] 0).top_emotions.length ≤ 5 :=
  (C9_top_emotions_clean_sorted_bounded [] 0).2.2
